import Mathlib

/-!
Shallow embedding of the sqlx core (Catvert/sqlx snapshot) used to check the
natural-language specification against the code.

Conventions of the embedding:
* byte buffers are lists of natural numbers (each entry a byte value);
* Rust Result is Except, with the error sum translated from
  src/sqlx-core/src/error.rs;
* code that can panic at runtime (out-of-bounds slices, todo stubs) is
  modelled in RustOutcome, whose panicked constructor marks a panic;
* async functions are modelled as pure functions of their inputs together
  with oracles for what the peer sends; the list of packets written to the
  socket is returned explicitly where a claim is about wire traffic.
-/

namespace Sqlx

/-- Error sum translated from src/sqlx-core/src/error.rs.  Payloads that carry
boxed dynamic errors or OS errors are flattened to the variant name; string
payloads are kept.  The variant RowNotFound is the one documented there as
returned from Map::fetch_one when no row was found (query.rs refers to it by
the shorter name NotFound). -/
inductive Error where
  | Io
  | UrlParse
  | Database
  | RowNotFound
  | ColumnNotFound (name : String)
  | ColumnIndexOutOfBounds (index len : Nat)
  | Protocol (msg : String)
  | PoolTimedOut
  | PoolClosed
  | Tls
  | Decode (msg : String)
deriving DecidableEq, Repr

/-- Outcome of running a piece of Rust code that may panic: either a value or
a panic with its message. -/
inductive RustOutcome (α : Type) where
  | ok (a : α)
  | panicked (msg : String)
deriving DecidableEq, Repr

/-! ## Query pipeline (src/sqlx-core/src/query.rs, src/sqlx-core/src/executor.rs) -/

/-- A cursor is modelled by the stream of outcomes its next() calls will
produce: each element is either a row or the error that next() returns at
that point.  next() on an exhausted cursor yields ok none. -/
def cursorNext {Row : Type} :
    List (Except Error Row) → Except Error (Option Row × List (Except Error Row))
  | [] => Except.ok (none, [])
  | Except.ok r :: rest => Except.ok (some r, rest)
  | Except.error e :: _ => Except.error e

/-- Rust Option::transpose on Option of Result. -/
def optionTranspose {α : Type} : Option (Except Error α) → Except Error (Option α)
  | none => Except.ok none
  | some (Except.ok a) => Except.ok (some a)
  | some (Except.error e) => Except.error e

/-- Map::fetch_optional (query.rs lines 208-218): fetch the cursor from the
executor, pull one row, map it through the row mapper, transpose.  The
executor is modelled as a function from the query to the cursor stream it
produces. -/
def Map.fetch_optional {Q Row M : Type} (executor : Q → List (Except Error Row))
    (q : Q) (mapper : Row → Except Error M) : Except Error (Option M) :=
  match cursorNext (executor q) with
  | Except.error e => Except.error e
  | Except.ok (val, _) => optionTranspose (val.map mapper)

/-- Map::fetch_one (query.rs lines 221-232): fetch_optional, then and_then
mapping Some to Ok and None to the row-not-found error. -/
def Map.fetch_one {Q Row M : Type} (executor : Q → List (Except Error Row))
    (q : Q) (mapper : Row → Except Error M) : Except Error M :=
  match Map.fetch_optional executor q mapper with
  | Except.error e => Except.error e
  | Except.ok (some row) => Except.ok row
  | Except.ok none => Except.error Error.RowNotFound

/-! ## Encode (src/sqlx-core/src/encode.rs) -/

/-- The return type of Encode::encode_nullable (encode.rs lines 8-16). -/
inductive IsNull where
  | Yes
  | No
deriving DecidableEq, Repr

/-- Encode for Option of T, method encode_nullable (encode.rs lines 65-73):
on Some the inner value is encoded into the buffer and No is returned; on
None the buffer is untouched and Yes is returned.  The inner Encode
implementation is modelled by its action on the buffer. -/
def encodeNullableOption {T : Type} (enc : T → List Nat → List Nat) :
    Option T → List Nat → List Nat × IsNull
  | some v, buf => (enc v buf, IsNull.No)
  | none, buf => (buf, IsNull.Yes)

/-- Encode for Option of T, method encode (encode.rs lines 60-63): forwards
to encode_nullable and discards the null flag. -/
def encodeOption {T : Type} (enc : T → List Nat → List Nat)
    (v : Option T) (buf : List Nat) : List Nat :=
  (encodeNullableOption enc v buf).1

/-- Encode for Option of T, method size_hint (encode.rs lines 75-81),
evaluated with explicit fuel.  The source body is
if self.is_some() then (*self).size_hint() else 0; the receiver of the
recursive call is the Option itself, so method resolution selects this very
method again: the call recurses on an unchanged receiver.  Running out of
fuel (none) marks non-termination. -/
def optionSizeHint {T : Type} : Nat → Option T → Option Nat
  | _, none => some 0
  | 0, some _ => none
  | fuel + 1, some v => optionSizeHint fuel (some v)

/-! ## Query builder (src/sqlx-core/src/query.rs, src/sqlx-core/src/executor.rs)

The concrete per-database Arguments implementations are not part of this
snapshot; the argument buffer type A and its add operation are abstracted, or
instantiated with the list model below where a claim needs a concrete empty
default. -/

/-- Query (query.rs lines 26-33): the SQL text plus the argument buffer. -/
structure Query (A : Type) where
  query : String
  arguments : A

/-- ImmutableArguments (query.rs line 49). -/
structure ImmutableArguments (A : Type) where
  args : A

/-- The query free function (query.rs lines 275-284): wraps the SQL with the
default (freshly constructed) argument buffer, passed here explicitly. -/
def query {A : Type} (dflt : A) (sql : String) : Query A :=
  { query := sql, arguments := dflt }

/-- Query::bind (query.rs lines 73-80): add the value to the argument buffer
through the Arguments add operation and return the updated query. -/
def Query.bind {A V : Type} (add : A → V → A) (q : Query A) (value : V) : Query A :=
  { q with arguments := add q.arguments value }

/-- Query::bind_all (query.rs lines 83-89): substitute an already built
buffer, producing a query over ImmutableArguments. -/
def Query.bind_all {A : Type} (q : Query A) (arguments : A) :
    Query (ImmutableArguments A) :=
  { query := q.query, arguments := { args := arguments } }

/-- Execute::into_parts for Query (executor.rs lines 70-83, the macro
impl_execute_for_query): the SQL text with some arguments. -/
def Query.into_parts {A : Type} (q : Query A) : String × Option A :=
  (q.query, some q.arguments)

/-- Execute::into_parts for Query over ImmutableArguments (query.rs lines
54-61): the SQL text with the inner buffer. -/
def intoPartsImmutable {A : Type} (q : Query (ImmutableArguments A)) :
    String × Option A :=
  (q.query, some q.arguments.args)

/-- Execute::into_parts for a bare string (executor.rs lines 60-68): the
string itself and no arguments, selecting the simple unprepared protocol. -/
def strIntoParts {A : Type} (s : String) : String × Option A :=
  (s, none)

/-- Modelled from the spec: the concrete per-database Arguments buffers
(MySqlArguments, PgArguments) are not under src; section 3 of the spec makes
Arguments an ordered append-only sequence of encoded values, modelled as a
list with add appending at the end and the default buffer empty. -/
def listArgumentsAdd {V : Type} (a : List V) (value : V) : List V :=
  a ++ [value]

/-- Arguments::is_empty default method (arguments.rs lines 12-15): len equals
zero, instantiated at the list model of a buffer. -/
def listArgumentsIsEmpty {V : Type} (a : List V) : Bool :=
  a.length == 0

/-! ## MySQL connection (src/sqlx-core/src/mysql/connection.rs) -/

/-- MAX_PACKET_SIZE (connection.rs line 19). -/
def MAX_PACKET_SIZE : Nat := 1024

/-- COLLATE_UTF8MB4_UNICODE_CI (connection.rs line 21). -/
def COLLATE_UTF8MB4_UNICODE_CI : Nat := 224

/-- AuthPlugin variants used by connection.rs (the enum itself lives in the
mysql protocol module of the repository). -/
inductive AuthPlugin where
  | MySqlNativePassword
  | CachingSha2Password
  | Sha256Password
deriving DecidableEq, Repr

/-- to_asciz (connection.rs lines 94-100): the bytes of the string followed
by a NUL terminator.  Strings are carried as their byte lists. -/
def to_asciz (s : List Nat) : List Nat :=
  s ++ [0]

/-- Modelled from the spec: xor_eq from the mysql util module is not under
src; per section 4.3.3 the NUL-terminated password is XORed with the salt,
the salt index wrapping around its length. -/
def xor_eq (pass nonce : List Nat) : List Nat :=
  pass.mapIdx (fun i b => b ^^^ nonce.getD (i % nonce.length) 0)

/-- rsa_encrypt_with_nonce (connection.rs lines 102-128).  The TLS flag of
the stream, the public-key packet the server answers with, and the RSA
encryption primitive (the rsa module wraps an external crate) are passed as
oracles.  Returns the packets this function itself sends on the stream and
the byte string it returns to its caller: over TLS nothing is sent and the
clear NUL-terminated password is returned; otherwise the single request byte
is sent, the NUL-terminated password XORed with the nonce is RSA-encrypted
under the key from the response packet (its bytes after the first), and the
ciphertext is returned. -/
def rsa_encrypt_with_nonce (isTls : Bool) (serverKeyPacket : List Nat)
    (rsaEncrypt : List Nat → List Nat → Except Error (List Nat))
    (public_key_request_id : Nat) (password nonce : List Nat) :
    Except Error (List (List Nat) × List Nat) :=
  if isTls then
    Except.ok ([], to_asciz password)
  else
    match rsaEncrypt (serverKeyPacket.drop 1) (xor_eq (to_asciz password) nonce) with
    | Except.error e => Except.error e
    | Except.ok enc => Except.ok ([[public_key_request_id]], enc)

/-- make_auth_response (connection.rs lines 130-143): the scramble of the
plugin for the native and caching plugins (the scramble computation lives in
the mysql protocol module and is abstracted), and the RSA path with request
byte 0x01 for sha256_password. -/
def make_auth_response (isTls : Bool) (serverKeyPacket : List Nat)
    (rsaEncrypt : List Nat → List Nat → Except Error (List Nat))
    (scramble : AuthPlugin → List Nat → List Nat → List Nat)
    (plugin : AuthPlugin) (password nonce : List Nat) :
    Except Error (List (List Nat) × List Nat) :=
  match plugin with
  | AuthPlugin.CachingSha2Password => Except.ok ([], scramble plugin password nonce)
  | AuthPlugin.MySqlNativePassword => Except.ok ([], scramble plugin password nonce)
  | AuthPlugin.Sha256Password =>
      rsa_encrypt_with_nonce isTls serverKeyPacket rsaEncrypt 0x01 password nonce

/-- The caching_sha2_password full-authentication continuation of establish
(connection.rs lines 221-228, the 0x01/0x04 branch): rsa_encrypt_with_nonce
with request byte 0x02, then the returned bytes are sent.  Returns every
packet sent during the continuation. -/
def cachingSha2FullAuth (isTls : Bool) (serverKeyPacket : List Nat)
    (rsaEncrypt : List Nat → List Nat → Except Error (List Nat))
    (password nonce : List Nat) : Except Error (List (List Nat)) :=
  match rsa_encrypt_with_nonce isTls serverKeyPacket rsaEncrypt 0x02 password nonce with
  | Except.error e => Except.error e
  | Except.ok (sent, enc) => Except.ok (sent ++ [enc])

/-- Connection URL as consumed by establish: the url module is outside the
core per the spec; only the accessors used by establish are modelled.  The
password is carried as its byte list. -/
structure Url where
  username : Option String
  password : Option (List Nat)
  database : Option String

/-- The HandshakeResponse packet as populated by establish (connection.rs
lines 173-185). -/
structure HandshakeResponse where
  client_collation : Nat
  max_packet_size : Nat
  username : String
  database : Option String
  auth_plugin : AuthPlugin
  auth_response : List Nat
deriving DecidableEq, Repr

/-- The part of establish (connection.rs lines 145-185) that computes the
auth response and fills the HandshakeResponse packet: the password defaults
to empty, the username to root, the collation and max packet size are the
two module constants. -/
def establishHandshakeResponse (isTls : Bool) (serverKeyPacket : List Nat)
    (rsaEncrypt : List Nat → List Nat → Except Error (List Nat))
    (scramble : AuthPlugin → List Nat → List Nat → List Nat)
    (url : Url) (auth_plugin : AuthPlugin) (auth_plugin_data : List Nat) :
    Except Error HandshakeResponse :=
  let password := url.password.getD []
  match make_auth_response isTls serverKeyPacket rsaEncrypt scramble
      auth_plugin password auth_plugin_data with
  | Except.error e => Except.error e
  | Except.ok (_, auth_response) =>
      Except.ok
        { client_collation := COLLATE_UTF8MB4_UNICODE_CI
        , max_packet_size := MAX_PACKET_SIZE
        , username := url.username.getD "root"
        , database := url.database
        , auth_plugin := auth_plugin
        , auth_response := auth_response }

/-- The observable behavior of the mysql stream during close: flush and
shutdown outcomes are oracles of the socket. -/
structure MySqlStreamModel where
  flushResult : Except Error Unit
  shutdownResult : Except Error Unit

/-- The COM_QUIT command packet (single command byte 0x01). -/
def COM_QUIT_PACKET : List Nat := [0x01]

/-- close (connection.rs lines 245-252): the body sends nothing (telling
MySQL that we are closing is left as a TODO comment in the source), flushes,
then shuts down, propagating a failure of either step with the question-mark
operator.  Returns the packets sent during close and the result. -/
def mysqlClose (stream : MySqlStreamModel) :
    List (List Nat) × Except Error Unit :=
  ([],
    match stream.flushResult with
    | Except.error e => Except.error e
    | Except.ok _ =>
        match stream.shutdownResult with
        | Except.error e => Except.error e
        | Except.ok _ => Except.ok ())

/-! ## Postgres value decoding (src/sqlx-core/src/postgres/types/bytes.rs,
src/sqlx-core/src/postgres/types/bool.rs) -/

/-- A Postgres raw value (postgres row module): binary bytes from the
prepared protocol or text from the simple protocol.  Text is carried as a
character list; a BYTEA text value is ASCII so the Rust byte index and the
character index agree. -/
inductive PgValue where
  | Binary (bytes : List Nat)
  | Text (s : List Char)
deriving DecidableEq, Repr

/-- Rust range indexing s[i..] on a string slice: the suffix from byte i, or
a panic when i exceeds the length. -/
def strSliceFrom (s : List Char) (i : Nat) : RustOutcome (List Char) :=
  if i ≤ s.length then RustOutcome.ok (s.drop i)
  else RustOutcome.panicked "byte index out of bounds"

/-- Modelled from the spec: the TryInto conversion from an optional raw
value used by the Decode implementations (the decode and postgres row
modules are not under src); per section 4.2 a None input to a non-optional
target fails with the UnexpectedNull decode error. -/
def pgValueTryInto (value : Option PgValue) : Except Error PgValue :=
  match value with
  | none => Except.error (Error.Decode "unexpected null")
  | some v => Except.ok v

/-- One hexadecimal digit, as the external hex crate reads it. -/
def hexVal (c : Char) : Option Nat :=
  if '0' ≤ c ∧ c ≤ '9' then some (c.toNat - '0'.toNat)
  else if 'a' ≤ c ∧ c ≤ 'f' then some (c.toNat - 'a'.toNat + 10)
  else if 'A' ≤ c ∧ c ≤ 'F' then some (c.toNat - 'A'.toNat + 10)
  else none

/-- hex::decode from the external hex crate: pairs of hex digits to bytes,
failing on an odd-length or non-hex input. -/
def hexDecodeBytes : List Char → Option (List Nat)
  | [] => some []
  | [_] => none
  | c1 :: c2 :: rest =>
      match hexVal c1, hexVal c2, hexDecodeBytes rest with
      | some hi, some lo, some bs => some ((hi * 16 + lo) :: bs)
      | _, _, _ => none

/-- Decode of Vec of bytes for Postgres (bytes.rs lines 40-50): a binary
value is copied out; a text value is sliced from byte 2 (skipping the
backslash-x prefix, panicking when the text is shorter) and hex-decoded,
a hex failure mapped to a Decode error. -/
def decodeVecU8 (value : Option PgValue) : RustOutcome (Except Error (List Nat)) :=
  match pgValueTryInto value with
  | Except.error e => RustOutcome.ok (Except.error e)
  | Except.ok (PgValue.Binary buf) => RustOutcome.ok (Except.ok buf)
  | Except.ok (PgValue.Text s) =>
      match strSliceFrom s 2 with
      | RustOutcome.panicked m => RustOutcome.panicked m
      | RustOutcome.ok tail =>
          match hexDecodeBytes tail with
          | some bytes => RustOutcome.ok (Except.ok bytes)
          | none => RustOutcome.ok (Except.error (Error.Decode "invalid hex"))

/-- Decode of bool for Postgres (bool.rs lines 26-33): the body is a todo
stub (the intended implementation is commented out next to it), so every
call panics with the standard todo message. -/
def pgBoolDecode (_buf : Option (List Nat)) : RustOutcome (Except Error Bool) :=
  RustOutcome.panicked "not yet implemented"

/-! ## Pool executor (src/sqlx-core/src/pool/executor.rs) -/

/-- Executor impl for a shared pool reference, method execute (lines 76-83):
the body is a todo stub, so every call panics with the standard todo
message; the intended acquire-and-dispatch implementation is commented out
in the same file.  The query is its wire parts; the cursor type is the
database cursor. -/
def poolRefExecute {Cursor : Type} (_q : String × Option (List Nat)) :
    RustOutcome Cursor :=
  RustOutcome.panicked "not yet implemented"

/-- Executor impl for a shared pool reference, method execute_by_ref (lines
85-93): likewise a todo stub that panics on every call. -/
def poolRefExecuteByRef {Cursor : Type} (_q : String × Option (List Nat)) :
    RustOutcome Cursor :=
  RustOutcome.panicked "not yet implemented"

/-! ## Theorems -/

/-- C1: for every mapped query and executor, Map::fetch_one equals
Map::fetch_optional followed by the emptiness check: it is literally the
bind of fetch_optional with Some mapped to Ok and None to RowNotFound, it
fails with RowNotFound when the result set is empty, and it returns the
mapped first row when there is one. -/
theorem fetch_one_eq_fetch_optional_then_check {Q Row M : Type}
    (executor : Q → List (Except Error Row)) (q : Q)
    (mapper : Row → Except Error M) :
    (Map.fetch_one executor q mapper
        = (Map.fetch_optional executor q mapper).bind
            (fun row => match row with
                        | some r => Except.ok r
                        | none => Except.error Error.RowNotFound))
    ∧ (executor q = [] →
        Map.fetch_one executor q mapper = Except.error Error.RowNotFound)
    ∧ (∀ r rest, executor q = Except.ok r :: rest →
        Map.fetch_one executor q mapper = mapper r) := by
  refine ⟨?_, ?_, ?_⟩
  · unfold Map.fetch_one Map.fetch_optional
    cases h : cursorNext (executor q) with
    | error e => rfl
    | ok val =>
        obtain ⟨v, rest⟩ := val
        cases v with
        | none => rfl
        | some r =>
            cases hm : mapper r with
            | error e => simp [optionTranspose, hm, Except.bind]
            | ok m => simp [optionTranspose, hm, Except.bind]
  · intro h
    unfold Map.fetch_one Map.fetch_optional
    simp [h, cursorNext, optionTranspose]
  · intro r rest h
    unfold Map.fetch_one Map.fetch_optional
    cases hm : mapper r with
    | error e => simp [h, cursorNext, optionTranspose, hm]
    | ok m => simp [h, cursorNext, optionTranspose, hm]

/-- Witness for C1: a concrete executor returning one row 5 with mapper
adding one; fetch_one returns 6. -/
theorem fetch_one_eq_fetch_optional_then_check_witness :
    Map.fetch_one (fun _ : Unit => ([Except.ok 5] : List (Except Error Nat))) ()
        (fun r => Except.ok (r + 1)) = Except.ok 6 := by
  have h := (fetch_one_eq_fetch_optional_then_check
      (fun _ : Unit => ([Except.ok 5] : List (Except Error Nat))) ()
      (fun r => Except.ok (r + 1))).2.2 5 [] rfl
  simpa using h

/-- C8: for every SQL string and pair of bound values, over any argument
buffer implementation, binding a then b one at a time yields, through
into_parts, the same wire parts (query text and argument buffer) as bind_all
of the buffer built by adding a then b to the default buffer. -/
theorem bind_bind_parts_eq_bind_all_parts {A V : Type} (dflt : A)
    (add : A → V → A) (sql : String) (a b : V) :
    Query.into_parts (Query.bind add (Query.bind add (query dflt sql) a) b)
      = intoPartsImmutable
          (Query.bind_all (query dflt sql) (add (add dflt a) b)) := rfl

/-- C10: submitting a bare SQL string yields parts (s, none) selecting the
simple unprepared protocol, while query s with no binds yields
(s, some empty-arguments) and is therefore prepared; the query text is
returned unchanged in both cases, and the default argument buffer is indeed
empty by the Arguments is_empty test. -/
theorem str_parts_simple_query_parts_prepared {V : Type} (s : String) :
    (@strIntoParts (List V) s = (s, none))
    ∧ (Query.into_parts (query ([] : List V) s) = (s, some []))
    ∧ listArgumentsIsEmpty ([] : List V) = true :=
  ⟨rfl, rfl, rfl⟩

/-- C5 counterexample: at a stream whose socket shutdown fails, close does
not succeed (the failure is propagated, not ignored) and no COM_QUIT packet
is ever sent during close. -/
theorem mysql_close_claim_counterexample :
    ¬ (COM_QUIT_PACKET ∈ (mysqlClose ⟨Except.ok (), Except.error Error.Io⟩).1
        ∧ (mysqlClose ⟨Except.ok (), Except.error Error.Io⟩).2 = Except.ok ()) := by
  intro h
  exact absurd h.1 (by simp [mysqlClose])

/-- C5 amended: close sends no packet at all (in particular no COM_QUIT,
which the source leaves as a TODO); it flushes then shuts down the socket,
and a failure of either the flush or the shutdown step is propagated as an
error from close rather than ignored; close succeeds only when both
succeed. -/
theorem mysql_close_behavior (sr : Except Error Unit) (e : Error) :
    (∀ fr, (mysqlClose ⟨fr, sr⟩).1 = [])
    ∧ (mysqlClose ⟨Except.ok (), sr⟩).2 = sr
    ∧ (mysqlClose ⟨Except.error e, sr⟩).2 = Except.error e := by
  refine ⟨fun fr => rfl, ?_, rfl⟩
  cases sr with
  | error e2 => rfl
  | ok u => cases u; rfl

/-- C6: in the sha256_password and caching_sha2_password full authentication
path, over TLS the client sends no key request and the value transmitted is
the plaintext password terminated by NUL; without TLS the client sends the
single public-key-request byte (0x01 for sha256_password via
make_auth_response, 0x02 for the caching_sha2_password continuation), and
the value sent is the RSA encryption, under the key returned by the server
(the response packet after its tag byte), of the NUL-terminated password
XORed with the salt. -/
theorem mysql_full_auth_path (keyPacket password nonce : List Nat)
    (rsaF : List Nat → List Nat → List Nat)
    (scramble : AuthPlugin → List Nat → List Nat → List Nat) :
    (cachingSha2FullAuth true keyPacket (fun k m => Except.ok (rsaF k m))
        password nonce = Except.ok [password ++ [0]])
    ∧ (cachingSha2FullAuth false keyPacket (fun k m => Except.ok (rsaF k m))
        password nonce
        = Except.ok [[0x02],
            rsaF (keyPacket.drop 1) (xor_eq (password ++ [0]) nonce)])
    ∧ (make_auth_response true keyPacket (fun k m => Except.ok (rsaF k m))
        scramble AuthPlugin.Sha256Password password nonce
        = Except.ok ([], password ++ [0]))
    ∧ (make_auth_response false keyPacket (fun k m => Except.ok (rsaF k m))
        scramble AuthPlugin.Sha256Password password nonce
        = Except.ok ([[0x01]],
            rsaF (keyPacket.drop 1) (xor_eq (password ++ [0]) nonce))) :=
  ⟨rfl, rfl, rfl, rfl⟩

/-- C7: for every connection URL, the HandshakeResponse emitted during the
MySQL handshake carries client collation 224 (utf8mb4_unicode_ci), an
advertised max packet size of 1024 bytes, and the username of the URL,
defaulting to root when the URL has none (shown on the caching_sha2_password
plugin, whose auth response is the scramble of the password and salt). -/
theorem handshake_response_fields (isTls : Bool) (keyPacket nonce : List Nat)
    (rsaEncrypt : List Nat → List Nat → Except Error (List Nat))
    (scramble : AuthPlugin → List Nat → List Nat → List Nat)
    (u : String) (pw : Option (List Nat)) (db : Option String) :
    (establishHandshakeResponse isTls keyPacket rsaEncrypt scramble
        ⟨some u, pw, db⟩ AuthPlugin.CachingSha2Password nonce
      = Except.ok
          { client_collation := 224
          , max_packet_size := 1024
          , username := u
          , database := db
          , auth_plugin := AuthPlugin.CachingSha2Password
          , auth_response := scramble AuthPlugin.CachingSha2Password (pw.getD []) nonce })
    ∧ (establishHandshakeResponse isTls keyPacket rsaEncrypt scramble
        ⟨none, pw, db⟩ AuthPlugin.CachingSha2Password nonce
      = Except.ok
          { client_collation := 224
          , max_packet_size := 1024
          , username := "root"
          , database := db
          , auth_plugin := AuthPlugin.CachingSha2Password
          , auth_response := scramble AuthPlugin.CachingSha2Password (pw.getD []) nonce }) :=
  ⟨rfl, rfl⟩

/-- C2: for every buffer and Option value, encode_nullable returns Yes (Null)
iff the value is none, leaves the buffer untouched in the none case, and in
the some case produces exactly the buffer that encoding the inner value
directly produces, returning No (NotNull). -/
theorem encode_nullable_option_spec {T : Type} (enc : T → List Nat → List Nat)
    (v : Option T) (buf : List Nat) :
    ((encodeNullableOption enc v buf).2 = IsNull.Yes ↔ v = none)
    ∧ (encodeNullableOption enc none buf = (buf, IsNull.Yes))
    ∧ (∀ x, encodeNullableOption enc (some x) buf = (enc x buf, IsNull.No)) := by
  refine ⟨?_, rfl, fun x => rfl⟩
  cases v with
  | none => simp [encodeNullableOption]
  | some x => simp [encodeNullableOption]

/-- C9 evaluation: size_hint on the Option Encode implementation never
terminates on a some value, no matter how much fuel it is given, because the
recursive call is on the same receiver; on none it returns 0. -/
theorem option_size_hint_diverges_on_some {T : Type} :
    (∀ (fuel : Nat) (v : T), optionSizeHint fuel (some v) = none)
    ∧ (∀ fuel : Nat, @optionSizeHint T fuel none = some 0) := by
  constructor
  · intro fuel
    induction fuel with
    | zero => intro v; rfl
    | succ n ih => intro v; simpa [optionSizeHint] using ih v
  · intro fuel
    cases fuel <;> rfl

/-- C3 evaluation: Postgres decode can panic.  Decoding a BYTEA textual raw
value shorter than two bytes panics on the byte-range slice instead of
returning Err, decoding a bool panics unconditionally on the todo stub, and
for contrast the well-formed paths (binary value, two-byte prefix plus valid
hex, null input) do return Results. -/
theorem postgres_decode_panics :
    (decodeVecU8 (some (PgValue.Text [])) = RustOutcome.panicked "byte index out of bounds")
    ∧ (decodeVecU8 (some (PgValue.Text ['x'])) = RustOutcome.panicked "byte index out of bounds")
    ∧ (pgBoolDecode (some [1]) = RustOutcome.panicked "not yet implemented")
    ∧ (decodeVecU8 (some (PgValue.Text ['\\', 'x', '0', 'f']))
        = RustOutcome.ok (Except.ok [15]))
    ∧ (decodeVecU8 (some (PgValue.Binary [7, 8])) = RustOutcome.ok (Except.ok [7, 8]))
    ∧ (decodeVecU8 none = RustOutcome.ok (Except.error (Error.Decode "unexpected null"))) := by
  refine ⟨rfl, rfl, rfl, ?_, rfl, rfl⟩
  rfl

/-- C4 evaluation: executing any query through a shared pool reference
panics on the todo stub instead of acquiring a connection and returning a
cursor, for both the execute and the execute_by_ref entry points. -/
theorem pool_ref_executor_panics :
    (@poolRefExecute Unit ("SELECT 1", none)
        = RustOutcome.panicked "not yet implemented")
    ∧ (@poolRefExecuteByRef Unit ("SELECT 1", some [])
        = RustOutcome.panicked "not yet implemented") :=
  ⟨rfl, rfl⟩

end Sqlx
